import Mathlib

/-!
# Transport listener hub (`transport/internet/tcp_hub.go`)

A shallow embedding of the listener registry, of `ListenTCP`, of `TCPHub.Close` and of the
accept loop `TCPHub.start`, followed by the properties established about them.

Conventions of the embedding.

* Go values that may be `nil` and are tested or used as such by the code (the `error`
  results, the `closed` channel, the accepted connection, a registered function value) keep a
  `nil` alternative.  Calls that return `(value, error)` are rendered with `Except`.
* Everything the code does to its collaborators (invoking a listen factory, calling a
  listener, logging, starting a goroutine) is recorded, in order, in the `trace` of the
  `World`.  What the collaborators answer is read from an `Env`.
* A goroutine is recorded where it is started; the code of each function is followed
  sequentially.
-/

namespace Internet

/-! ## Data model -/

/-- Modelled from the spec: the transport protocol identifier, an identifier such as "a small
enumerated value"; its declaration is not part of `tcp_hub.go`. -/
structure TransportProtocol where
  value : Int
  deriving DecidableEq

/-- Network address handed to a listen factory (`v2net.Address`), kept abstract. -/
structure Address where
  name : String
  deriving DecidableEq

/-- Network port handed to a listen factory (`v2net.Port`). -/
structure Port where
  value : Nat
  deriving DecidableEq

/-- Effective transport or security settings, as produced by settings resolution. -/
structure Settings where
  id : Nat
  deriving DecidableEq

/-- An accepted connection (a non-nil `Connection`). -/
structure Connection where
  id : Nat
  deriving DecidableEq

/-- A listener object (a non-nil `Listener`). -/
structure Listener where
  id : Nat
  deriving DecidableEq

/-- The caller supplied connection callback (`ConnectionHandler`). -/
structure ConnectionHandler where
  id : Nat
  deriving DecidableEq

/-- The stream configuration object behind a non-nil `*StreamConfig`. -/
structure StreamConfig where
  id : Nat
  deriving DecidableEq

/-- One argument of a message passed to `errors.New` or to `ErrorBuilder.Message`. -/
inductive MsgPart where
  | str (s : String)
  | protocol (p : TransportProtocol)
  | address (a : Address)
  | port (p : Port)
  deriving DecidableEq

/-- A non-nil Go `error`.  `foreign` is an error produced by a collaborator; `new msg` is
`errors.New(msg...)`; `base cause actionRequired msg` is `errors.Base(cause)`, optionally
followed by `.RequireUserAction()`, followed by `.Message(msg...)`.  The constructors record
the arguments of the call; how they are rendered to text is left to the errors package. -/
inductive Error where
  | foreign (id : Nat)
  | new (msg : List MsgPart)
  | base (cause : Error) (actionRequired : Bool) (msg : List MsgPart)
  deriving DecidableEq

/-- The arguments from which the message of an error was built (none for a foreign error). -/
def Error.message : Error → List MsgPart
  | .foreign _ => []
  | .new msg => msg
  | .base _ _ msg => msg

/-- The error an error was built on with `errors.Base`, if any. -/
def Error.cause : Error → Option Error
  | .base c _ _ => some c
  | _ => none

/-- A value of the function type `ListenFunc`: `nil`, or a factory identified by `id`. -/
inductive ListenFunc where
  | nil
  | fn (id : Nat)
  deriving DecidableEq

/-- A `context.Context` as built by `ListenTCP`: `context.Background()` extended by
`ContextWithTransportSettings` and `ContextWithSecuritySettings`. -/
inductive Context where
  | background
  | withTransportSettings (parent : Context) (s : Settings)
  | withSecuritySettings (parent : Context) (s : Settings)
  deriving DecidableEq

/-- Modelled from the spec: the transport settings a context carries (the accessor that pairs
with `ContextWithTransportSettings` lives outside `tcp_hub.go`); the innermost binding wins. -/
def Context.transportSettings : Context → Option Settings
  | .background => none
  | .withTransportSettings _ s => some s
  | .withSecuritySettings parent _ => parent.transportSettings

/-- Modelled from the spec: the security settings a context carries (the accessor that pairs
with `ContextWithSecuritySettings` lives outside `tcp_hub.go`); the innermost binding wins. -/
def Context.securitySettings : Context → Option Settings
  | .background => none
  | .withTransportSettings parent _ => parent.securitySettings
  | .withSecuritySettings _ s => some s

/-- A value of type `chan bool`: `none` is the nil channel, `some id` a channel made with
`make`. -/
abbrev Chan := Option Nat

/-- The struct `TCPHub`. -/
structure TCPHub where
  listener : Listener
  connCallback : ConnectionHandler
  closed : Chan
  deriving DecidableEq

/-- Log severities used by the accept loop. -/
inductive Severity where
  | warning
  | info
  deriving DecidableEq

/-- What the code does to its collaborators. -/
inductive Event where
  | listen (f : Nat) (ctx : Context) (address : Address) (port : Port)
  | goStart (hub : TCPHub)
  | listenerClose (l : Listener)
  | listenerAccept (l : Listener)
  | log (sev : Severity) (err : Error)
  | goCallback (h : ConnectionHandler) (c : Connection)
  deriving DecidableEq

/-- The state the code runs in: the channels that have been closed, and the events so far
(oldest first). -/
structure World where
  closedChans : List Nat
  trace : List Event
  deriving DecidableEq

/-- The answers of the collaborators.  The methods of `*StreamConfig` take the receiver as it
is passed (possibly nil); `HasSecuritySettings` is only reached behind the nil check.
`listen f` is the factory with identifier `f`; `accept l i` is what the call number `i`
(counting from zero) of `l.Accept()` returns: an error, or a connection that may be nil. -/
structure Env where
  GetEffectiveProtocol : Option StreamConfig → TransportProtocol
  GetEffectiveTransportSettings : Option StreamConfig → Except Error Settings
  HasSecuritySettings : StreamConfig → Bool
  GetEffectiveSecuritySettings : Option StreamConfig → Except Error Settings
  listen : Nat → Context → Address → Port → Except Error Listener
  accept : Listener → Nat → Except Error (Option Connection)
  IsActionRequired : Error → Bool

/-- Append an event to the trace. -/
def World.emit (w : World) (e : Event) : World :=
  { w with trace := w.trace ++ [e] }

/-- Number of calls of `l.Close()` so far. -/
def World.closeCalls (w : World) (l : Listener) : Nat :=
  w.trace.count (Event.listenerClose l)

/-- Number of calls of `l.Accept()` so far. -/
def World.acceptCalls (w : World) (l : Listener) : Nat :=
  w.trace.count (Event.listenerAccept l)

/-- The listen factory invocations so far. -/
def World.listenCalls (w : World) : List Event :=
  w.trace.filter (fun e => match e with | .listen _ _ _ _ => true | _ => false)

/-- The accept loops started so far. -/
def World.startedLoops (w : World) : List Event :=
  w.trace.filter (fun e => match e with | .goStart _ => true | _ => false)

/-- The log entries written so far. -/
def World.logEntries (w : World) : List Event :=
  w.trace.filter (fun e => match e with | .log _ _ => true | _ => false)

/-- The handler goroutines started so far. -/
def World.dispatched (w : World) : List Event :=
  w.trace.filter (fun e => match e with | .goCallback _ _ => true | _ => false)

/-! ## Channels -/

/-- Whether `case <-ch` of a `select` is ready.  A nil channel is never ready; nothing is
ever sent on `closed`, so a made channel is ready exactly when it has been closed. -/
def recvReady (w : World) (ch : Chan) : Bool :=
  match ch with
  | none => false
  | some id => decide (id ∈ w.closedChans)

/-- A run-time panic. -/
inductive Panic where
  | closeOfNilChannel
  | closeOfClosedChannel
  deriving DecidableEq

/-- The builtin `close(ch)`: panics on the nil channel and on a closed channel. -/
def closeChan (w : World) (ch : Chan) : Except Panic World :=
  match ch with
  | none => .error .closeOfNilChannel
  | some id =>
    if id ∈ w.closedChans then .error .closeOfClosedChannel
    else .ok { w with closedChans := id :: w.closedChans }

/-! ## Registry -/

/-- The package variable `transportListenerCache`: a Go map, `none` where there is no key. -/
abbrev Registry := TransportProtocol → Option ListenFunc

/-- The freshly made map. -/
def Registry.empty : Registry := fun _ => none

/-- The Go expression `transportListenerCache[protocol]`: the entry, or the zero value. -/
def Registry.lookup (cache : Registry) (protocol : TransportProtocol) : ListenFunc :=
  (cache protocol).getD .nil

/-- `RegisterTransportListener`: the new content of the map and the returned error. -/
def RegisterTransportListener (cache : Registry) (protocol : TransportProtocol)
    (listener : ListenFunc) : Registry × Option Error :=
  match cache protocol with
  | some _ =>
    (cache, some (.new [.str "Internet|TCPHub: ", .protocol protocol,
      .str " listener already registered."]))
  | none => (Function.update cache protocol (some listener), none)

/-! ## Construction -/

/-- The condition `settings != nil && settings.HasSecuritySettings()`: the configuration
declares security settings. -/
def Env.declaresSecurity (env : Env) (settings : Option StreamConfig) : Bool :=
  match settings with
  | none => false
  | some cfg => env.HasSecuritySettings cfg

/-- The context the factory is to receive according to the spec: it carries the transport
settings `ts`, and the security settings `ss` when they are declared. -/
def specContext (ts : Settings) (declared : Bool) (ss : Settings) : Context :=
  if declared then .withSecuritySettings (.withTransportSettings .background ts) ss
  else .withTransportSettings .background ts

/-- `ListenTCP`: the returned pair `(*TCPHub, error)` and the world afterwards. -/
def ListenTCP (env : Env) (cache : Registry) (address : Address) (port : Port)
    (callback : ConnectionHandler) (settings : Option StreamConfig) (w : World) :
    (Option TCPHub × Option Error) × World :=
  let ctx := Context.background
  let protocol := env.GetEffectiveProtocol settings
  match env.GetEffectiveTransportSettings settings with
  | .error err => ((none, some err), w)
  | .ok transportSettings =>
    let ctx := Context.withTransportSettings ctx transportSettings
    let withSecurity : Except Error Context :=
      if env.declaresSecurity settings then
        match env.GetEffectiveSecuritySettings settings with
        | .error err => .error err
        | .ok securitySettings => .ok (Context.withSecuritySettings ctx securitySettings)
      else .ok ctx
    match withSecurity with
    | .error err => ((none, some err), w)
    | .ok ctx =>
      match cache.lookup protocol with
      | .nil =>
        ((none, some (.new [.str "Internet|TCPHub: ", .protocol protocol,
          .str " listener not registered."])), w)
      | .fn f =>
        let w := w.emit (.listen f ctx address port)
        match env.listen f ctx address port with
        | .error err =>
          ((none, some (.base err false [.str "Internet|TCPHub: Failed to listen on address: ",
            .address address, .str ":", .port port])), w)
        | .ok listener =>
          -- the struct literal sets `listener` and `connCallback`; `closed` keeps its zero
          -- value, the nil channel
          let hub : TCPHub := { listener := listener, connCallback := callback, closed := none }
          let w := w.emit (.goStart hub)
          ((some hub, none), w)

/-! ## Shutdown -/

/-- The body of `TCPHub.Close` below the `defer`: the world reached, and the panic that
interrupted the body, if any. -/
def TCPHub.closeBody (v : TCPHub) (w : World) : World × Option Panic :=
  if recvReady w v.closed then (w, none)
  else
    let w := w.emit (.listenerClose v.listener)
    match closeChan w v.closed with
    | .error p => (w, some p)
    | .ok w => (w, none)

/-- `TCPHub.Close`: the deferred `recover()` swallows a panic of the body, so the call
returns normally in the world the body reached. -/
def TCPHub.Close (v : TCPHub) (w : World) : World :=
  (v.closeBody w).1

/-- `n` calls of `Close()` in sequence. -/
def TCPHub.closeTimes (v : TCPHub) : Nat → World → World
  | 0, w => w
  | n + 1, w => v.closeTimes n (v.Close w)

/-! ## Accept loop -/

/-- Modelled from the spec: the attempts of the retry policy behind
`retry.ExponentialBackoff(..).On(method)`, whose code is in the retry package.  With `n`
attempts left, `method` is run; a nil result ends the loop with nil, a failure uses up one
attempt.  When no attempt is left the final error is returned. -/
def Retry.attempts {σ : Type} (method : σ → σ × Option Error) :
    Nat → Option Error → σ → σ × Option Error
  | 0, last, s => (s, last)
  | n + 1, _, s =>
    match method s with
    | (s1, none) => (s1, none)
    | (s1, some err) => Retry.attempts method n (some err) s1

/-- Modelled from the spec: `retry.ExponentialBackoff(totalAttempt, delay).On(method)`, "a
bounded exponential-backoff retry policy: up to 10 attempts, base delay 500".  The delays
between attempts are waiting time and leave no mark on the state. -/
def Retry.ExponentialBackoff.On {σ : Type} (totalAttempt : Nat) (_delay : Nat)
    (method : σ → σ × Option Error) (s : σ) : σ × Option Error :=
  Retry.attempts method totalAttempt none s

/-- The closure passed to the retry policy in `TCPHub.start`.  Its state is the world and the
captured variable `newConn`; its result is the returned error. -/
def TCPHub.acceptClosure (env : Env) (v : TCPHub) (s : World × Option Connection) :
    (World × Option Connection) × Option Error :=
  if recvReady s.1 v.closed then (s, none)
  else
    let w := s.1.emit (.listenerAccept v.listener)
    match env.accept v.listener (s.1.acceptCalls v.listener) with
    | .error err =>
      ((w, s.2), some (.base err true
        [.str "Internet|Listener: Failed to accept new TCP connection."]))
    | .ok conn => ((w, conn), none)

/-- How one pass through the body of the `for` loop of `TCPHub.start` ends. -/
inductive LoopStep where
  | returned
  | next
  deriving DecidableEq

/-- One iteration of the `for` loop of `TCPHub.start`. -/
def TCPHub.startIteration (env : Env) (v : TCPHub) (w : World) : World × LoopStep :=
  if recvReady w v.closed then (w, .returned)
  else
    match Retry.ExponentialBackoff.On 10 500 (v.acceptClosure env) (w, none) with
    | ((w, _), some err) =>
      if env.IsActionRequired err then (w.emit (.log .warning err), .next)
      else (w.emit (.log .info err), .next)
    | ((w, some conn), none) => (w.emit (.goCallback v.connCallback conn), .next)
    | ((w, none), none) => (w, .next)

/-- `TCPHub.start`, run for at most `fuel` iterations: the world reached and whether the
function has returned. -/
def TCPHub.start (env : Env) (v : TCPHub) : Nat → World → World × Bool
  | 0, w => (w, false)
  | fuel + 1, w =>
    match v.startIteration env w with
    | (w1, .returned) => (w1, true)
    | (w1, .next) => TCPHub.start env v fuel w1

/-- The world `w` after `k` further calls of `l.Accept()`. -/
def World.afterAccepts (w : World) (l : Listener) (k : Nat) : World :=
  { w with trace := w.trace ++ List.replicate k (Event.listenerAccept l) }

/-! ## Sample data -/

/-- An environment in which resolution succeeds, security settings are declared, factory `0`
binds listener `7`, every other factory fails, and `Accept` fails three times before it
yields connection `42`, and fails from then on. -/
def sampleEnv : Env where
  GetEffectiveProtocol := fun _ => ⟨1⟩
  GetEffectiveTransportSettings := fun _ => .ok ⟨10⟩
  HasSecuritySettings := fun _ => true
  GetEffectiveSecuritySettings := fun _ => .ok ⟨20⟩
  listen := fun f _ _ _ => if f = 0 then .ok ⟨7⟩ else .error (.foreign 5)
  accept := fun _ i => if i = 3 then .ok (some ⟨42⟩) else .error (.foreign i)
  IsActionRequired := fun e => match e with | .base _ b _ => b | _ => false

/-- An environment in which resolving the security settings fails. -/
def failingSecurityEnv : Env :=
  { sampleEnv with GetEffectiveSecuritySettings := fun _ => .error (.foreign 9) }

/-- An environment in which resolving the transport settings fails. -/
def failingTransportEnv : Env :=
  { sampleEnv with GetEffectiveTransportSettings := fun _ => .error (.foreign 8) }

/-- An environment whose effective protocol is `2`, for which `sampleRegistry` holds the
failing factory `3`. -/
def failingListenEnv : Env :=
  { sampleEnv with GetEffectiveProtocol := fun _ => ⟨2⟩ }

/-- An environment in which every `Accept` fails. -/
def failingAcceptEnv : Env :=
  { sampleEnv with accept := fun _ i => .error (.foreign i) }

/-- A registry holding factory `0` for protocol `1` and factory `3` for protocol `2`. -/
def sampleRegistry : Registry :=
  (RegisterTransportListener (RegisterTransportListener Registry.empty ⟨1⟩ (.fn 0)).1 ⟨2⟩
    (.fn 3)).1

/-- The world before anything has happened. -/
def World.initial : World := { closedChans := [], trace := [] }

/-- The hub `ListenTCP` builds in `sampleEnv`. -/
def sampleHub : TCPHub := { listener := ⟨7⟩, connCallback := ⟨1⟩, closed := none }

/-! ## Basic facts -/

theorem recvReady_emit (w : World) (e : Event) (ch : Chan) :
    recvReady (w.emit e) ch = recvReady w ch := by
  cases ch <;> rfl

theorem recvReady_nil (w : World) : recvReady w none = false := rfl

theorem acceptCalls_emit_accept (w : World) (l : Listener) :
    (w.emit (.listenerAccept l)).acceptCalls l = w.acceptCalls l + 1 := by
  simp [World.emit, World.acceptCalls]

theorem afterAccepts_zero (w : World) (l : Listener) : w.afterAccepts l 0 = w := by
  simp [World.afterAccepts]

theorem afterAccepts_emit (w : World) (l : Listener) (k : Nat) :
    (w.emit (.listenerAccept l)).afterAccepts l k = w.afterAccepts l (k + 1) := by
  simp [World.afterAccepts, World.emit, List.replicate_succ]

theorem acceptCalls_afterAccepts (w : World) (l : Listener) (k : Nat) :
    (w.afterAccepts l k).acceptCalls l = w.acceptCalls l + k := by
  simp [World.afterAccepts, World.acceptCalls]

theorem recvReady_afterAccepts (w : World) (l : Listener) (k : Nat) (ch : Chan) :
    recvReady (w.afterAccepts l k) ch = recvReady w ch := by
  cases ch <;> rfl

/-- The hub built by `ListenTCP` has a nil `closed` channel: the struct literal does not
set the field. -/
theorem ListenTCP_closed_nil (env : Env) (cache : Registry) (address : Address) (port : Port)
    (callback : ConnectionHandler) (settings : Option StreamConfig) (w w1 : World)
    (hub : TCPHub) (err : Option Error)
    (h : ListenTCP env cache address port callback settings w = ((some hub, err), w1)) :
    hub.closed = none := by
  unfold ListenTCP at h
  simp only at h
  split at h
  · simp at h
  · split at h
    · simp at h
    · split at h
      · simp at h
      · split at h
        · simp at h
        · simp only [Prod.mk.injEq, Option.some.injEq] at h
          rw [← h.1.1]

/-- On a hub whose `closed` channel is nil, `Close()` calls the listener and changes nothing
else. -/
theorem Close_of_closed_nil (v : TCPHub) (w : World) (hv : v.closed = none) :
    v.Close w = w.emit (.listenerClose v.listener) := by
  simp [TCPHub.Close, TCPHub.closeBody, hv, recvReady, closeChan]

theorem closeCalls_closeTimes_of_closed_nil (v : TCPHub) (hv : v.closed = none) (n : Nat)
    (w : World) : (v.closeTimes n w).closeCalls v.listener = w.closeCalls v.listener + n := by
  induction n generalizing w with
  | zero => rfl
  | succ n ih =>
    rw [TCPHub.closeTimes, ih, Close_of_closed_nil v w hv]
    simp [World.emit, World.closeCalls]
    omega

theorem Close_of_closed_done (v : TCPHub) (id : Nat) (hv : v.closed = some id) (w : World)
    (hw : id ∈ w.closedChans) : v.Close w = w := by
  simp [TCPHub.Close, TCPHub.closeBody, hv, recvReady, hw]

theorem closeTimes_of_closed_done (v : TCPHub) (id : Nat) (hv : v.closed = some id) (n : Nat)
    (w : World) (hw : id ∈ w.closedChans) : v.closeTimes n w = w := by
  induction n with
  | zero => rfl
  | succ n ih => rw [TCPHub.closeTimes, Close_of_closed_done v id hv w hw, ih]

/-- Where the `closed` channel has been made and is still open, one `Close()` calls the
listener once and closes the channel, and further calls do nothing. -/
theorem closeTimes_of_closed_made (v : TCPHub) (id : Nat) (hv : v.closed = some id) (w : World)
    (hw : id ∉ w.closedChans) (n : Nat) :
    v.closeTimes (n + 1) w =
      { closedChans := id :: w.closedChans, trace := w.trace ++ [.listenerClose v.listener] } := by
  have h1 : v.Close w =
      { closedChans := id :: w.closedChans, trace := w.trace ++ [.listenerClose v.listener] } := by
    simp [TCPHub.Close, TCPHub.closeBody, hv, recvReady, closeChan, hw, World.emit]
  rw [TCPHub.closeTimes, h1]
  exact closeTimes_of_closed_done v id hv n _ (by simp)

/-! ## Facts about the accept loop -/

theorem acceptClosure_of_open (env : Env) (v : TCPHub) (w : World) (nc : Option Connection)
    (h : recvReady w v.closed = false) :
    v.acceptClosure env (w, nc) =
      match env.accept v.listener (w.acceptCalls v.listener) with
      | .error err =>
        ((w.emit (.listenerAccept v.listener), nc), some (.base err true
          [.str "Internet|Listener: Failed to accept new TCP connection."]))
      | .ok conn => ((w.emit (.listenerAccept v.listener), conn), none) := by
  simp [TCPHub.acceptClosure, h]

theorem acceptClosure_of_shutdown (env : Env) (v : TCPHub) (w : World)
    (nc : Option Connection) (h : recvReady w v.closed = true) :
    v.acceptClosure env (w, nc) = ((w, nc), none) := by
  simp [TCPHub.acceptClosure, h]

theorem acceptClosure_acceptCalls (env : Env) (v : TCPHub) (w : World)
    (nc : Option Connection) (h : recvReady w v.closed = false) :
    (v.acceptClosure env (w, nc)).1.1.acceptCalls v.listener =
      w.acceptCalls v.listener + 1 := by
  rw [acceptClosure_of_open env v w nc h]
  split <;> exact acceptCalls_emit_accept w v.listener

theorem acceptClosure_acceptCalls_le (env : Env) (v : TCPHub) (s : World × Option Connection) :
    s.1.acceptCalls v.listener ≤ (v.acceptClosure env s).1.1.acceptCalls v.listener := by
  obtain ⟨w, nc⟩ := s
  cases h : recvReady w v.closed with
  | true => rw [acceptClosure_of_shutdown env v w nc h]
  | false => rw [acceptClosure_acceptCalls env v w nc h]; exact Nat.le_succ _

theorem attempts_acceptCalls_le (env : Env) (v : TCPHub) (n : Nat) :
    ∀ (last : Option Error) (s : World × Option Connection),
      s.1.acceptCalls v.listener ≤
        (Retry.attempts (v.acceptClosure env) n last s).1.1.acceptCalls v.listener := by
  induction n with
  | zero => intro last s; exact Nat.le_refl _
  | succ n ih =>
    intro last s
    have h1 := acceptClosure_acceptCalls_le env v s
    rw [Retry.attempts]
    split
    · rename_i s1 heq
      rw [heq] at h1
      exact h1
    · rename_i s1 err heq
      rw [heq] at h1
      exact Nat.le_trans h1 (ih (some err) s1)

/-- When the first `k` calls of `Accept` fail and the next one returns `r`, the retry loop
with more than `k` attempts left makes exactly `k + 1` calls and ends with nil and
`newConn = r`. -/
theorem attempts_fail_then_ok (env : Env) (v : TCPHub) (r : Option Connection) (k : Nat) :
    ∀ (n : Nat) (last : Option Error) (w : World) (nc : Option Connection),
      recvReady w v.closed = false → k < n →
      (∀ i, i < k → ∃ e, env.accept v.listener (w.acceptCalls v.listener + i) = .error e) →
      env.accept v.listener (w.acceptCalls v.listener + k) = .ok r →
      Retry.attempts (v.acceptClosure env) n last (w, nc) =
        ((w.afterAccepts v.listener (k + 1), r), none) := by
  induction k with
  | zero =>
    intro n last w nc hopen hlt _ hok
    obtain ⟨m, rfl⟩ : ∃ m, n = m + 1 := ⟨n - 1, by omega⟩
    rw [Nat.add_zero] at hok
    rw [Retry.attempts, acceptClosure_of_open env v w nc hopen, hok]
    simp only
    rw [← afterAccepts_emit, afterAccepts_zero]
  | succ k ih =>
    intro n last w nc hopen hlt hfail hok
    obtain ⟨m, rfl⟩ : ∃ m, n = m + 1 := ⟨n - 1, by omega⟩
    obtain ⟨e, he⟩ := hfail 0 (by omega)
    rw [Nat.add_zero] at he
    rw [Retry.attempts, acceptClosure_of_open env v w nc hopen, he]
    simp only
    rw [ih m _ (w.emit (.listenerAccept v.listener)) nc
      (by rw [recvReady_emit]; exact hopen) (by omega)
      (by
        intro i hi
        rw [acceptCalls_emit_accept]
        have := hfail (i + 1) (by omega)
        rwa [show w.acceptCalls v.listener + 1 + i = w.acceptCalls v.listener + (i + 1) by omega])
      (by
        rw [acceptCalls_emit_accept]
        rwa [show w.acceptCalls v.listener + 1 + k = w.acceptCalls v.listener + (k + 1) by omega]),
      afterAccepts_emit]

/-- When every one of the `n` remaining attempts fails, the retry loop makes exactly `n`
calls of `Accept`, leaves `newConn` alone and returns the error of the final attempt. -/
theorem attempts_all_fail (env : Env) (v : TCPHub) (n : Nat) :
    ∀ (last : Option Error) (w : World) (nc : Option Connection),
      recvReady w v.closed = false →
      (∀ i, i < n → ∃ e, env.accept v.listener (w.acceptCalls v.listener + i) = .error e) →
      (n = 0 → last ≠ none) →
      ∃ err, Retry.attempts (v.acceptClosure env) n last (w, nc) =
          ((w.afterAccepts v.listener n, nc), some err) ∧
        ∀ e, 0 < n → env.accept v.listener (w.acceptCalls v.listener + (n - 1)) = .error e →
          err = .base e true [.str "Internet|Listener: Failed to accept new TCP connection."] := by
  induction n with
  | zero =>
    intro last w nc _ _ hlast
    cases last with
    | none => exact absurd rfl (hlast rfl)
    | some err =>
      refine ⟨err, ?_, ?_⟩
      · rw [Retry.attempts, afterAccepts_zero]
      · intro e h0; omega
  | succ n ih =>
    intro last w nc hopen hfail _
    obtain ⟨e0, he0⟩ := hfail 0 (by omega)
    rw [Nat.add_zero] at he0
    obtain ⟨err, herr, hlastErr⟩ := ih
      (some (.base e0 true [.str "Internet|Listener: Failed to accept new TCP connection."]))
      (w.emit (.listenerAccept v.listener)) nc
      (by rw [recvReady_emit]; exact hopen)
      (by
        intro i hi
        rw [acceptCalls_emit_accept]
        have := hfail (i + 1) (by omega)
        rwa [show w.acceptCalls v.listener + 1 + i = w.acceptCalls v.listener + (i + 1) by omega])
      (by intro _; simp)
    refine ⟨err, ?_, ?_⟩
    · rw [Retry.attempts, acceptClosure_of_open env v w nc hopen, he0]
      simp only
      rw [herr, afterAccepts_emit]
    · intro e _ he
      cases n with
      | zero =>
        rw [Retry.attempts] at herr
        simp only [Prod.mk.injEq, Option.some.injEq] at herr
        simp only [Nat.zero_add, Nat.sub_self, Nat.add_zero] at he
        rw [he0] at he
        cases he
        exact herr.2.symm
      | succ n =>
        apply hlastErr e (by omega)
        rw [acceptCalls_emit_accept]
        rw [show w.acceptCalls v.listener + 1 + (n + 1 - 1) =
          w.acceptCalls v.listener + (n + 1 + 1 - 1) by omega]
        exact he

theorem startIteration_next (env : Env) (v : TCPHub) (w : World)
    (h : recvReady w v.closed = false) : (v.startIteration env w).2 = .next := by
  unfold TCPHub.startIteration
  simp only [h]
  split
  · contradiction
  · split
    · split <;> rfl
    · rfl
    · rfl

theorem startIteration_acceptCalls_lt (env : Env) (v : TCPHub) (w : World)
    (h : recvReady w v.closed = false) :
    w.acceptCalls v.listener < (v.startIteration env w).1.acceptCalls v.listener := by
  have key : w.acceptCalls v.listener <
      (Retry.ExponentialBackoff.On 10 500 (v.acceptClosure env)
        (w, none)).1.1.acceptCalls v.listener := by
    have h1 := acceptClosure_acceptCalls env v w none h
    rw [Retry.ExponentialBackoff.On, Retry.attempts]
    split
    · rename_i s1 heq
      rw [heq] at h1
      simp only at h1 ⊢
      omega
    · rename_i s1 err heq
      rw [heq] at h1
      have h2 := attempts_acceptCalls_le env v 9 (some err) s1
      simp only at h1
      omega
  unfold TCPHub.startIteration
  simp only [h]
  split
  · contradiction
  · split
    · rename_i heq
      rw [heq] at key
      split <;> simpa [World.emit, World.acceptCalls] using key
    · rename_i heq
      rw [heq] at key
      simpa [World.emit, World.acceptCalls] using key
    · rename_i heq
      rw [heq] at key
      exact key

/-- On a hub whose `closed` channel is nil the accept loop never returns. -/
theorem start_never_returns_of_closed_nil (env : Env) (v : TCPHub) (hv : v.closed = none)
    (fuel : Nat) : ∀ w : World, (v.start env fuel w).2 = false := by
  induction fuel with
  | zero => intro w; rfl
  | succ fuel ih =>
    intro w
    have h := startIteration_next env v w (by rw [hv]; rfl)
    rw [TCPHub.start]
    split
    · rename_i heq
      rw [heq] at h
      cases h
    · exact ih _

/-! ## Registry -/

/-- C3: registering a protocol that already has an entry returns a non-nil error and
leaves the registry as it was, so the lookup of that protocol still yields the factory
registered first. -/
theorem RegisterTransportListener_duplicate (cache : Registry) (protocol : TransportProtocol)
    (original listenFunc : ListenFunc) (h : cache protocol = some original) :
    (RegisterTransportListener cache protocol listenFunc).2 ≠ none ∧
    (RegisterTransportListener cache protocol listenFunc).1 = cache ∧
    (RegisterTransportListener cache protocol listenFunc).1 protocol = some original ∧
    (RegisterTransportListener cache protocol listenFunc).1.lookup protocol = original := by
  simp [RegisterTransportListener, h, Registry.lookup]

theorem RegisterTransportListener_duplicate_witness :
    sampleRegistry ⟨1⟩ = some (.fn 0) ∧
    ((RegisterTransportListener sampleRegistry ⟨1⟩ (.fn 9)).2 ≠ none ∧
     (RegisterTransportListener sampleRegistry ⟨1⟩ (.fn 9)).1 = sampleRegistry ∧
     (RegisterTransportListener sampleRegistry ⟨1⟩ (.fn 9)).1 ⟨1⟩ = some (.fn 0) ∧
     (RegisterTransportListener sampleRegistry ⟨1⟩ (.fn 9)).1.lookup ⟨1⟩ = .fn 0) :=
  ⟨by decide, RegisterTransportListener_duplicate sampleRegistry ⟨1⟩ (.fn 0) (.fn 9) (by decide)⟩

/-- C4: registering a protocol that has no entry returns nil; afterwards the lookup of
that protocol yields the registered function, and the entry of every other protocol is what
it was before. -/
theorem RegisterTransportListener_fresh (cache : Registry) (protocol : TransportProtocol)
    (listenFunc : ListenFunc) (h : cache protocol = none) :
    (RegisterTransportListener cache protocol listenFunc).2 = none ∧
    (RegisterTransportListener cache protocol listenFunc).1 protocol = some listenFunc ∧
    (RegisterTransportListener cache protocol listenFunc).1.lookup protocol = listenFunc ∧
    ∀ other : TransportProtocol, other ≠ protocol →
      (RegisterTransportListener cache protocol listenFunc).1 other = cache other := by
  simp only [RegisterTransportListener, h, Registry.lookup, Function.update_same,
    Option.getD_some, true_and]
  intro other hne
  exact Function.update_noteq hne _ _

theorem RegisterTransportListener_fresh_witness :
    sampleRegistry ⟨5⟩ = none ∧
    ((RegisterTransportListener sampleRegistry ⟨5⟩ (.fn 9)).2 = none ∧
     (RegisterTransportListener sampleRegistry ⟨5⟩ (.fn 9)).1 ⟨5⟩ = some (.fn 9) ∧
     (RegisterTransportListener sampleRegistry ⟨5⟩ (.fn 9)).1.lookup ⟨5⟩ = .fn 9 ∧
     ∀ other : TransportProtocol, other ≠ ⟨5⟩ →
       (RegisterTransportListener sampleRegistry ⟨5⟩ (.fn 9)).1 other = sampleRegistry other) :=
  ⟨by decide, RegisterTransportListener_fresh sampleRegistry ⟨5⟩ (.fn 9) (by decide)⟩

/-! ## Shutdown -/

/-- C1 (as the code behaves): on a hub returned by `ListenTCP`, each of `n` successive
calls of `Close()` calls the listener's `Close`, so the listener is closed `n` times and not
once. -/
theorem Close_calls_listener_every_time (env : Env) (cache : Registry) (address : Address)
    (port : Port) (callback : ConnectionHandler) (settings : Option StreamConfig)
    (w w1 : World) (hub : TCPHub)
    (h : ListenTCP env cache address port callback settings w = ((some hub, none), w1))
    (n : Nat) :
    (hub.closeTimes n w1).closeCalls hub.listener = w1.closeCalls hub.listener + n :=
  closeCalls_closeTimes_of_closed_nil hub
    (ListenTCP_closed_nil env cache address port callback settings w w1 hub none h) n w1

theorem Close_calls_listener_every_time_witness :
    ListenTCP sampleEnv sampleRegistry ⟨"0.0.0.0"⟩ ⟨443⟩ ⟨1⟩ (some ⟨0⟩) World.initial =
        ((some sampleHub, none),
          (World.initial.emit (.listen 0 (specContext ⟨10⟩ true ⟨20⟩) ⟨"0.0.0.0"⟩ ⟨443⟩)).emit
            (.goStart sampleHub)) ∧
    (sampleHub.closeTimes 2
        ((World.initial.emit (.listen 0 (specContext ⟨10⟩ true ⟨20⟩) ⟨"0.0.0.0"⟩ ⟨443⟩)).emit
          (.goStart sampleHub))).closeCalls sampleHub.listener = 2 :=
  ⟨by decide, Close_calls_listener_every_time sampleEnv sampleRegistry ⟨"0.0.0.0"⟩ ⟨443⟩ ⟨1⟩
    (some ⟨0⟩) World.initial _ sampleHub (by decide) 2⟩

/-- C2 (as the code behaves): on a hub returned by `ListenTCP`, a call of `Close()`
leaves the shutdown signal unset.  The check at the top of the accept loop does not end the
loop, which never returns, and the retry closure calls the listener's `Accept`. -/
theorem Close_leaves_shutdown_signal_unset (env : Env) (cache : Registry) (address : Address)
    (port : Port) (callback : ConnectionHandler) (settings : Option StreamConfig)
    (w w1 : World) (hub : TCPHub)
    (h : ListenTCP env cache address port callback settings w = ((some hub, none), w1))
    (w2 : World) (newConn : Option Connection) :
    recvReady (hub.Close w2) hub.closed = false ∧
    (hub.startIteration env (hub.Close w2)).2 = .next ∧
    (∀ fuel, (hub.start env fuel (hub.Close w2)).2 = false) ∧
    (hub.acceptClosure env (hub.Close w2, newConn)).1.1.acceptCalls hub.listener =
      (hub.Close w2).acceptCalls hub.listener + 1 := by
  have hv := ListenTCP_closed_nil env cache address port callback settings w w1 hub none h
  have hopen : recvReady (hub.Close w2) hub.closed = false := by rw [hv]; rfl
  exact ⟨hopen, startIteration_next env hub _ hopen,
    fun fuel => start_never_returns_of_closed_nil env hub hv fuel _,
    acceptClosure_acceptCalls env hub _ newConn hopen⟩

theorem Close_leaves_shutdown_signal_unset_witness :
    recvReady (sampleHub.Close World.initial) sampleHub.closed = false ∧
    (sampleHub.startIteration sampleEnv (sampleHub.Close World.initial)).2 = .next ∧
    (∀ fuel, (sampleHub.start sampleEnv fuel (sampleHub.Close World.initial)).2 = false) ∧
    (sampleHub.acceptClosure sampleEnv (sampleHub.Close World.initial, none)).1.1.acceptCalls
        sampleHub.listener =
      (sampleHub.Close World.initial).acceptCalls sampleHub.listener + 1 :=
  Close_leaves_shutdown_signal_unset sampleEnv sampleRegistry ⟨"0.0.0.0"⟩ ⟨443⟩ ⟨1⟩
    (some ⟨0⟩) World.initial _ sampleHub
    (show ListenTCP sampleEnv sampleRegistry ⟨"0.0.0.0"⟩ ⟨443⟩ ⟨1⟩ (some ⟨0⟩) World.initial =
      ((some sampleHub, none),
        (World.initial.emit (.listen 0 (specContext ⟨10⟩ true ⟨20⟩) ⟨"0.0.0.0"⟩ ⟨443⟩)).emit
          (.goStart sampleHub)) by decide)
    World.initial none

/-! ## Construction -/

/-- C5: when resolving the transport settings fails, or the configuration declares
security settings and resolving them fails, `ListenTCP` returns no hub and the very error of
the resolver, and the world is untouched: no listen factory is invoked and no accept loop is
started. -/
theorem ListenTCP_resolution_failure (env : Env) (cache : Registry) (address : Address)
    (port : Port) (callback : ConnectionHandler) (settings : Option StreamConfig) (w : World)
    (e : Error)
    (h : env.GetEffectiveTransportSettings settings = .error e ∨
      ((∃ ts, env.GetEffectiveTransportSettings settings = .ok ts) ∧
        env.declaresSecurity settings = true ∧
        env.GetEffectiveSecuritySettings settings = .error e)) :
    ListenTCP env cache address port callback settings w = ((none, some e), w) ∧
    (ListenTCP env cache address port callback settings w).2.listenCalls = w.listenCalls ∧
    (ListenTCP env cache address port callback settings w).2.startedLoops = w.startedLoops := by
  have key : ListenTCP env cache address port callback settings w = ((none, some e), w) := by
    rcases h with h | ⟨⟨ts, hts⟩, hdecl, hss⟩
    · simp [ListenTCP, h]
    · simp [ListenTCP, hts, hdecl, hss]
  rw [key]
  exact ⟨rfl, rfl, rfl⟩

theorem ListenTCP_resolution_failure_witness :
    (ListenTCP failingSecurityEnv sampleRegistry ⟨"0.0.0.0"⟩ ⟨443⟩ ⟨1⟩ (some ⟨0⟩) World.initial =
        ((none, some (.foreign 9)), World.initial) ∧
      (ListenTCP failingSecurityEnv sampleRegistry ⟨"0.0.0.0"⟩ ⟨443⟩ ⟨1⟩ (some ⟨0⟩)
        World.initial).2.listenCalls = World.initial.listenCalls ∧
      (ListenTCP failingSecurityEnv sampleRegistry ⟨"0.0.0.0"⟩ ⟨443⟩ ⟨1⟩ (some ⟨0⟩)
        World.initial).2.startedLoops = World.initial.startedLoops) ∧
    (ListenTCP failingTransportEnv sampleRegistry ⟨"0.0.0.0"⟩ ⟨443⟩ ⟨1⟩ none World.initial =
        ((none, some (.foreign 8)), World.initial) ∧
      (ListenTCP failingTransportEnv sampleRegistry ⟨"0.0.0.0"⟩ ⟨443⟩ ⟨1⟩ none
        World.initial).2.listenCalls = World.initial.listenCalls ∧
      (ListenTCP failingTransportEnv sampleRegistry ⟨"0.0.0.0"⟩ ⟨443⟩ ⟨1⟩ none
        World.initial).2.startedLoops = World.initial.startedLoops) :=
  ⟨ListenTCP_resolution_failure failingSecurityEnv sampleRegistry ⟨"0.0.0.0"⟩ ⟨443⟩ ⟨1⟩
      (some ⟨0⟩) World.initial (.foreign 9) (Or.inr ⟨⟨⟨10⟩, rfl⟩, rfl, rfl⟩),
    ListenTCP_resolution_failure failingTransportEnv sampleRegistry ⟨"0.0.0.0"⟩ ⟨443⟩ ⟨1⟩
      none World.initial (.foreign 8) (Or.inl rfl)⟩

/-- C6: when settings resolution succeeds and the effective protocol has no entry in the
registry, `ListenTCP` returns no hub and an error whose message is built from that protocol,
and the world is untouched: no listen factory is invoked and no accept loop is started. -/
theorem ListenTCP_unregistered (env : Env) (cache : Registry) (address : Address)
    (port : Port) (callback : ConnectionHandler) (settings : Option StreamConfig) (w : World)
    (ts : Settings)
    (hts : env.GetEffectiveTransportSettings settings = .ok ts)
    (hss : env.declaresSecurity settings = true →
      ∃ ss, env.GetEffectiveSecuritySettings settings = .ok ss)
    (hreg : cache (env.GetEffectiveProtocol settings) = none) :
    ListenTCP env cache address port callback settings w =
      ((none, some (.new [.str "Internet|TCPHub: ",
        .protocol (env.GetEffectiveProtocol settings), .str " listener not registered."])), w) ∧
    (∃ err, (ListenTCP env cache address port callback settings w).1 = (none, some err) ∧
      MsgPart.protocol (env.GetEffectiveProtocol settings) ∈ err.message) ∧
    (ListenTCP env cache address port callback settings w).2.listenCalls = w.listenCalls ∧
    (ListenTCP env cache address port callback settings w).2.startedLoops = w.startedLoops := by
  have key : ListenTCP env cache address port callback settings w =
      ((none, some (.new [.str "Internet|TCPHub: ",
        .protocol (env.GetEffectiveProtocol settings), .str " listener not registered."])),
        w) := by
    cases hdecl : env.declaresSecurity settings with
    | false => simp [ListenTCP, hts, hdecl, Registry.lookup, hreg]
    | true =>
      obtain ⟨ss, hss1⟩ := hss hdecl
      simp [ListenTCP, hts, hdecl, hss1, Registry.lookup, hreg]
  rw [key]
  exact ⟨rfl, ⟨_, rfl, by simp [Error.message]⟩, rfl, rfl⟩

theorem ListenTCP_unregistered_witness :
    ListenTCP sampleEnv Registry.empty ⟨"0.0.0.0"⟩ ⟨443⟩ ⟨1⟩ (some ⟨0⟩) World.initial =
      ((none, some (.new [.str "Internet|TCPHub: ",
        .protocol (sampleEnv.GetEffectiveProtocol (some ⟨0⟩)),
        .str " listener not registered."])), World.initial) ∧
    (∃ err, (ListenTCP sampleEnv Registry.empty ⟨"0.0.0.0"⟩ ⟨443⟩ ⟨1⟩ (some ⟨0⟩)
        World.initial).1 = (none, some err) ∧
      MsgPart.protocol (sampleEnv.GetEffectiveProtocol (some ⟨0⟩)) ∈ err.message) ∧
    (ListenTCP sampleEnv Registry.empty ⟨"0.0.0.0"⟩ ⟨443⟩ ⟨1⟩ (some ⟨0⟩)
      World.initial).2.listenCalls = World.initial.listenCalls ∧
    (ListenTCP sampleEnv Registry.empty ⟨"0.0.0.0"⟩ ⟨443⟩ ⟨1⟩ (some ⟨0⟩)
      World.initial).2.startedLoops = World.initial.startedLoops :=
  ListenTCP_unregistered sampleEnv Registry.empty ⟨"0.0.0.0"⟩ ⟨443⟩ ⟨1⟩ (some ⟨0⟩)
    World.initial ⟨10⟩ rfl (fun _ => ⟨⟨20⟩, rfl⟩) rfl

/-- C7: when settings resolution succeeds and the factory registered for the protocol
returns an error `e`, the factory is invoked exactly once, `ListenTCP` returns no hub and an
error that has `e` as its cause and whose message is built from the address and the port,
and no accept loop is started. -/
theorem ListenTCP_factory_failure (env : Env) (cache : Registry) (address : Address)
    (port : Port) (callback : ConnectionHandler) (settings : Option StreamConfig) (w : World)
    (ts ss : Settings) (f : Nat) (e : Error)
    (hts : env.GetEffectiveTransportSettings settings = .ok ts)
    (hss : env.declaresSecurity settings = true →
      env.GetEffectiveSecuritySettings settings = .ok ss)
    (hreg : cache (env.GetEffectiveProtocol settings) = some (.fn f))
    (hfail : env.listen f (specContext ts (env.declaresSecurity settings) ss) address port =
      .error e) :
    (∃ err, (ListenTCP env cache address port callback settings w).1 = (none, some err) ∧
      err.cause = some e ∧ MsgPart.address address ∈ err.message ∧
      MsgPart.port port ∈ err.message) ∧
    (ListenTCP env cache address port callback settings w).2.trace =
      w.trace ++ [.listen f (specContext ts (env.declaresSecurity settings) ss) address port] ∧
    (ListenTCP env cache address port callback settings w).2.listenCalls =
      w.listenCalls ++
        [.listen f (specContext ts (env.declaresSecurity settings) ss) address port] ∧
    (ListenTCP env cache address port callback settings w).2.startedLoops = w.startedLoops := by
  have key : ListenTCP env cache address port callback settings w =
      ((none, some (.base e false [.str "Internet|TCPHub: Failed to listen on address: ",
        .address address, .str ":", .port port])),
        w.emit (.listen f (specContext ts (env.declaresSecurity settings) ss) address port)) := by
    cases hdecl : env.declaresSecurity settings with
    | false =>
      rw [hdecl] at hfail
      simp only [specContext, Bool.false_eq_true, if_true, if_false] at hfail ⊢
      simp [ListenTCP, hts, hdecl, Registry.lookup, hreg, hfail]
    | true =>
      rw [hdecl] at hfail
      simp only [specContext, Bool.false_eq_true, if_true, if_false] at hfail ⊢
      simp [ListenTCP, hts, hdecl, hss hdecl, Registry.lookup, hreg, hfail]
  rw [key]
  refine ⟨⟨_, rfl, rfl, by simp [Error.message], by simp [Error.message]⟩, rfl, ?_, ?_⟩
  · simp [World.listenCalls, World.emit]
  · simp [World.startedLoops, World.emit]

theorem ListenTCP_factory_failure_witness :
    (∃ err, (ListenTCP failingListenEnv sampleRegistry ⟨"0.0.0.0"⟩ ⟨443⟩ ⟨1⟩ (some ⟨0⟩)
        World.initial).1 = (none, some err) ∧
      err.cause = some (.foreign 5) ∧ MsgPart.address ⟨"0.0.0.0"⟩ ∈ err.message ∧
      MsgPart.port ⟨443⟩ ∈ err.message) ∧
    (ListenTCP failingListenEnv sampleRegistry ⟨"0.0.0.0"⟩ ⟨443⟩ ⟨1⟩ (some ⟨0⟩)
        World.initial).2.trace =
      World.initial.trace ++
        [.listen 3 (specContext ⟨10⟩ (failingListenEnv.declaresSecurity (some ⟨0⟩)) ⟨20⟩)
          ⟨"0.0.0.0"⟩ ⟨443⟩] ∧
    (ListenTCP failingListenEnv sampleRegistry ⟨"0.0.0.0"⟩ ⟨443⟩ ⟨1⟩ (some ⟨0⟩)
        World.initial).2.listenCalls =
      World.initial.listenCalls ++
        [.listen 3 (specContext ⟨10⟩ (failingListenEnv.declaresSecurity (some ⟨0⟩)) ⟨20⟩)
          ⟨"0.0.0.0"⟩ ⟨443⟩] ∧
    (ListenTCP failingListenEnv sampleRegistry ⟨"0.0.0.0"⟩ ⟨443⟩ ⟨1⟩ (some ⟨0⟩)
        World.initial).2.startedLoops = World.initial.startedLoops :=
  ListenTCP_factory_failure failingListenEnv sampleRegistry ⟨"0.0.0.0"⟩ ⟨443⟩ ⟨1⟩ (some ⟨0⟩)
    World.initial ⟨10⟩ ⟨20⟩ 3 (.foreign 5) rfl (fun _ => rfl) (by decide) rfl

/-- C8: when settings resolution succeeds and the registered factory returns a listener
`L`, the factory has been invoked exactly once, with the given address and port and a
context that carries the resolved transport settings, and the resolved security settings
exactly when the configuration declares them; `ListenTCP` returns a nil error and a hub
holding `L` and the handler of the caller, whose shutdown signal is not set. -/
theorem ListenTCP_success (env : Env) (cache : Registry) (address : Address)
    (port : Port) (callback : ConnectionHandler) (settings : Option StreamConfig) (w : World)
    (ts ss : Settings) (f : Nat) (L : Listener)
    (hts : env.GetEffectiveTransportSettings settings = .ok ts)
    (hss : env.declaresSecurity settings = true →
      env.GetEffectiveSecuritySettings settings = .ok ss)
    (hreg : cache (env.GetEffectiveProtocol settings) = some (.fn f))
    (hok : env.listen f (specContext ts (env.declaresSecurity settings) ss) address port =
      .ok L) :
    (∃ hub, (ListenTCP env cache address port callback settings w).1 = (some hub, none) ∧
      hub.listener = L ∧ hub.connCallback = callback ∧
      ∀ w2 : World, recvReady w2 hub.closed = false) ∧
    (ListenTCP env cache address port callback settings w).2.listenCalls =
      w.listenCalls ++
        [.listen f (specContext ts (env.declaresSecurity settings) ss) address port] ∧
    (specContext ts (env.declaresSecurity settings) ss).transportSettings = some ts ∧
    (specContext ts (env.declaresSecurity settings) ss).securitySettings =
      (if env.declaresSecurity settings then some ss else none) := by
  have key : ListenTCP env cache address port callback settings w =
      ((some { listener := L, connCallback := callback, closed := none }, none),
        (w.emit (.listen f (specContext ts (env.declaresSecurity settings) ss) address
          port)).emit
          (.goStart { listener := L, connCallback := callback, closed := none })) := by
    cases hdecl : env.declaresSecurity settings with
    | false =>
      rw [hdecl] at hok
      simp only [specContext, Bool.false_eq_true, if_true, if_false] at hok ⊢
      simp [ListenTCP, hts, hdecl, Registry.lookup, hreg, hok]
    | true =>
      rw [hdecl] at hok
      simp only [specContext, Bool.false_eq_true, if_true, if_false] at hok ⊢
      simp [ListenTCP, hts, hdecl, hss hdecl, Registry.lookup, hreg, hok]
  rw [key]
  refine ⟨⟨_, rfl, rfl, rfl, fun _ => rfl⟩, ?_, ?_, ?_⟩
  · simp [World.listenCalls, World.emit]
  · cases env.declaresSecurity settings <;> rfl
  · cases env.declaresSecurity settings <;> rfl

theorem ListenTCP_success_witness :
    (∃ hub, (ListenTCP sampleEnv sampleRegistry ⟨"0.0.0.0"⟩ ⟨443⟩ ⟨1⟩ none
        World.initial).1 = (some hub, none) ∧
      hub.listener = ⟨7⟩ ∧ hub.connCallback = ⟨1⟩ ∧
      ∀ w2 : World, recvReady w2 hub.closed = false) ∧
    (ListenTCP sampleEnv sampleRegistry ⟨"0.0.0.0"⟩ ⟨443⟩ ⟨1⟩ none World.initial).2.listenCalls =
      World.initial.listenCalls ++
        [.listen 0 (specContext ⟨10⟩ (sampleEnv.declaresSecurity none) ⟨20⟩)
          ⟨"0.0.0.0"⟩ ⟨443⟩] ∧
    (specContext ⟨10⟩ (sampleEnv.declaresSecurity none) ⟨20⟩).transportSettings = some ⟨10⟩ ∧
    (specContext ⟨10⟩ (sampleEnv.declaresSecurity none) ⟨20⟩).securitySettings =
      (if sampleEnv.declaresSecurity none then some ⟨20⟩ else none) :=
  ListenTCP_success sampleEnv sampleRegistry ⟨"0.0.0.0"⟩ ⟨443⟩ ⟨1⟩ none World.initial
    ⟨10⟩ ⟨20⟩ 0 ⟨7⟩ rfl (fun _ => rfl) (by decide) rfl

/-! ## Accept loop -/

/-- C9: in one iteration of the accept loop of a hub that is not shut down, when `Accept`
fails on its first `k < 10` calls and then returns the connection `c`, the iteration calls
`Accept` `k + 1` times, starts the handler on `c` exactly once, logs nothing, and the loop
goes on to the next iteration. -/
theorem startIteration_delivers_after_failures (env : Env) (v : TCPHub) (w : World) (k : Nat)
    (c : Connection)
    (hopen : recvReady w v.closed = false) (hk : k < 10)
    (hfail : ∀ i, i < k →
      ∃ e, env.accept v.listener (w.acceptCalls v.listener + i) = .error e)
    (hok : env.accept v.listener (w.acceptCalls v.listener + k) = .ok (some c)) :
    v.startIteration env w =
      ((w.afterAccepts v.listener (k + 1)).emit (.goCallback v.connCallback c), .next) ∧
    (v.startIteration env w).1.dispatched = w.dispatched ++ [.goCallback v.connCallback c] ∧
    (v.startIteration env w).1.logEntries = w.logEntries ∧
    (v.startIteration env w).1.acceptCalls v.listener = w.acceptCalls v.listener + (k + 1) ∧
    ∀ fuel, v.start env (fuel + 1) w = v.start env fuel (v.startIteration env w).1 := by
  have key : v.startIteration env w =
      ((w.afterAccepts v.listener (k + 1)).emit (.goCallback v.connCallback c), .next) := by
    unfold TCPHub.startIteration
    simp only [hopen, Retry.ExponentialBackoff.On]
    rw [attempts_fail_then_ok env v (some c) k 10 none w none hopen hk hfail hok]
    simp
  refine ⟨key, ?_, ?_, ?_, ?_⟩
  · rw [key]
    simp [World.dispatched, World.emit, World.afterAccepts, List.filter_append]
  · rw [key]
    simp [World.logEntries, World.emit, World.afterAccepts, List.filter_append]
  · rw [key]
    simp [World.acceptCalls, World.emit, World.afterAccepts]
  · intro fuel
    rw [TCPHub.start, key]

theorem startIteration_delivers_after_failures_witness :
    sampleHub.startIteration sampleEnv World.initial =
      ((World.initial.afterAccepts sampleHub.listener (3 + 1)).emit
        (.goCallback sampleHub.connCallback ⟨42⟩), .next) ∧
    (sampleHub.startIteration sampleEnv World.initial).1.dispatched =
      World.initial.dispatched ++ [.goCallback sampleHub.connCallback ⟨42⟩] ∧
    (sampleHub.startIteration sampleEnv World.initial).1.logEntries =
      World.initial.logEntries ∧
    (sampleHub.startIteration sampleEnv World.initial).1.acceptCalls sampleHub.listener =
      World.initial.acceptCalls sampleHub.listener + (3 + 1) ∧
    ∀ fuel, sampleHub.start sampleEnv (fuel + 1) World.initial =
      sampleHub.start sampleEnv fuel (sampleHub.startIteration sampleEnv World.initial).1 :=
  startIteration_delivers_after_failures sampleEnv sampleHub World.initial 3 ⟨42⟩ rfl
    (by decide)
    (fun i hi => ⟨.foreign i, by
      have h3 : i ≠ 3 := by omega
      simp [sampleEnv, World.initial, World.acceptCalls, h3]⟩)
    rfl

/-- C10: in one iteration of the accept loop of a hub that is not shut down, when `Accept`
fails on each of the 10 attempts of the retry policy, the iteration calls `Accept` exactly 10
times, writes exactly one log entry (for the error of the final attempt), starts no handler,
and the loop does not end: it goes on to the next iteration, which calls `Accept` again. -/
theorem startIteration_logs_once_when_exhausted (env : Env) (v : TCPHub) (w : World)
    (hopen : recvReady w v.closed = false)
    (hfail : ∀ i, i < 10 →
      ∃ e, env.accept v.listener (w.acceptCalls v.listener + i) = .error e) :
    (∃ sev e, env.accept v.listener (w.acceptCalls v.listener + 9) = .error e ∧
      v.startIteration env w =
        ((w.afterAccepts v.listener 10).emit (.log sev (.base e true
          [.str "Internet|Listener: Failed to accept new TCP connection."])), .next) ∧
      (v.startIteration env w).1.logEntries = w.logEntries ++ [.log sev (.base e true
          [.str "Internet|Listener: Failed to accept new TCP connection."])]) ∧
    (v.startIteration env w).1.acceptCalls v.listener = w.acceptCalls v.listener + 10 ∧
    (v.startIteration env w).1.dispatched = w.dispatched ∧
    (v.startIteration env w).2 = .next ∧
    (∀ fuel, v.start env (fuel + 1) w = v.start env fuel (v.startIteration env w).1) ∧
    (v.startIteration env w).1.acceptCalls v.listener <
      (v.startIteration env (v.startIteration env w).1).1.acceptCalls v.listener := by
  obtain ⟨e9, he9⟩ := hfail 9 (by omega)
  obtain ⟨err, herr, hlast⟩ := attempts_all_fail env v 10 none w none hopen hfail (by omega)
  have herr9 := hlast e9 (by omega) he9
  subst herr9
  have key : ∃ sev, v.startIteration env w =
      ((w.afterAccepts v.listener 10).emit (.log sev (.base e9 true
        [.str "Internet|Listener: Failed to accept new TCP connection."])), .next) := by
    unfold TCPHub.startIteration
    simp only [hopen, Retry.ExponentialBackoff.On]
    rw [herr]
    by_cases hreq : env.IsActionRequired (.base e9 true
        [.str "Internet|Listener: Failed to accept new TCP connection."]) = true
    · exact ⟨.warning, by simp [hreq]⟩
    · exact ⟨.info, by simp [hreq]⟩
  obtain ⟨sev, hkey⟩ := key
  have hopen2 : recvReady (v.startIteration env w).1 v.closed = false := by
    rw [hkey]
    simp only [recvReady_emit, recvReady_afterAccepts]
    exact hopen
  refine ⟨⟨sev, e9, he9, hkey, ?_⟩, ?_, ?_, ?_, ?_, ?_⟩
  · rw [hkey]
    simp [World.logEntries, World.emit, World.afterAccepts, List.filter_append]
  · rw [hkey]
    simp [World.acceptCalls, World.emit, World.afterAccepts]
  · rw [hkey]
    simp [World.dispatched, World.emit, World.afterAccepts, List.filter_append]
  · rw [hkey]
  · intro fuel
    rw [TCPHub.start, hkey]
  · exact startIteration_acceptCalls_lt env v _ hopen2

theorem startIteration_logs_once_when_exhausted_witness :
    (∃ sev e, failingAcceptEnv.accept sampleHub.listener
        (World.initial.acceptCalls sampleHub.listener + 9) = .error e ∧
      sampleHub.startIteration failingAcceptEnv World.initial =
        ((World.initial.afterAccepts sampleHub.listener 10).emit (.log sev (.base e true
          [.str "Internet|Listener: Failed to accept new TCP connection."])), .next) ∧
      (sampleHub.startIteration failingAcceptEnv World.initial).1.logEntries =
        World.initial.logEntries ++ [.log sev (.base e true
          [.str "Internet|Listener: Failed to accept new TCP connection."])]) ∧
    (sampleHub.startIteration failingAcceptEnv World.initial).1.acceptCalls sampleHub.listener =
      World.initial.acceptCalls sampleHub.listener + 10 ∧
    (sampleHub.startIteration failingAcceptEnv World.initial).1.dispatched =
      World.initial.dispatched ∧
    (sampleHub.startIteration failingAcceptEnv World.initial).2 = .next ∧
    (∀ fuel, sampleHub.start failingAcceptEnv (fuel + 1) World.initial =
      sampleHub.start failingAcceptEnv fuel
        (sampleHub.startIteration failingAcceptEnv World.initial).1) ∧
    (sampleHub.startIteration failingAcceptEnv World.initial).1.acceptCalls sampleHub.listener <
      (sampleHub.startIteration failingAcceptEnv
        (sampleHub.startIteration failingAcceptEnv World.initial).1).1.acceptCalls
          sampleHub.listener :=
  startIteration_logs_once_when_exhausted failingAcceptEnv sampleHub World.initial rfl
    (fun i _ => ⟨.foreign i, by
      simp [failingAcceptEnv, sampleEnv, World.initial, World.acceptCalls]⟩)

end Internet
